import Mathlib

/-!
Verification development for the `mcp-image-generator` repository.

The repository consists of several MCP tool servers (image generation,
mesh generation, sound generation) that proxy prompts to generative-AI
HTTP backends.  This file gives a shallow embedding of the parts of the
code the specification talks about:

* the provider selector `getActiveProvider` and the startup credential
  check of the image-generation server,
* the Replicate polling loops (the uncapped loops of the image/sound
  servers and the attempt-capped loop of the mesh server),
* the mesh output-URL extractor,
* the multi-candidate output fan-out naming of the tool dispatcher,
* the background-removal provider fallback,
* the model-version caches of the mesh and sound servers,
* the MIME-type defaulting of `edit_image` / `remove_background`.

JavaScript strings that are analysed character by character (file paths,
URLs) are modelled as `List Char`; strings that are only constructed and
compared for equality (statuses, messages) are modelled as `String`.
JavaScript truthiness is modelled explicitly wherever the source relies
on it (`undefined` and the empty string are falsy, buffers are truthy).
`path.resolve` is modelled as the identity on already-resolved paths;
the theorems therefore quantify over resolved paths.
-/

namespace McpImageGen

/-! ### JavaScript environment-variable truthiness -/

/-- Truthiness of `process.env.X` in a boolean position: the variable is
falsy when it is unset or set to the empty string. -/
def truthyEnv : Option String → Bool
  | none => false
  | some s => s != ""

/-- The environment variables read by the image-generation server
(`src/unnamed/part_005`, lines 15-18). -/
structure Env where
  geminiApiKey : Option String
  replicateApiToken : Option String
  huggingFaceToken : Option String
  imageGenerationProviderVar : Option String

/-- `IMAGE_GENERATION_PROVIDER = process.env.IMAGE_GENERATION_PROVIDER || "gemini"`
(`part_005`, line 18): the `||` default applies when the variable is unset
or empty. -/
def imageGenerationProvider (e : Env) : String :=
  match e.imageGenerationProviderVar with
  | none => "gemini"
  | some s => if s == "" then "gemini" else s

/-- `getActiveProvider` (`part_005`, lines 28-35), translated clause by
clause from the source. -/
def getActiveProvider (e : Env) : Option String :=
  if imageGenerationProvider e == "replicate" && truthyEnv e.replicateApiToken then
    some "replicate"
  else if imageGenerationProvider e == "huggingface" && truthyEnv e.huggingFaceToken then
    some "huggingface"
  else if truthyEnv e.geminiApiKey then some "gemini"
  else if truthyEnv e.replicateApiToken then some "replicate"
  else if truthyEnv e.huggingFaceToken then some "huggingface"
  else none

/-- The credential required by a provider identifier (claim-side helper:
`gemini` needs `GEMINI_API_KEY`, `replicate` needs `REPLICATE_API_TOKEN`,
`huggingface` needs `HUGGING_FACE_TOKEN`; an unrecognized identifier has
no credential). -/
def credentialFor (e : Env) (p : String) : Bool :=
  if p == "gemini" then truthyEnv e.geminiApiKey
  else if p == "replicate" then truthyEnv e.replicateApiToken
  else if p == "huggingface" then truthyEnv e.huggingFaceToken
  else false

/-- Provider selection as the specification words it: the explicit
override when its credential is present, otherwise gemini, then
replicate, then huggingface by credential presence, otherwise nothing.
This definition follows the spec text and is compared against
`getActiveProvider`, which follows the source. -/
def specSelectedProvider (e : Env) : Option String :=
  if credentialFor e (imageGenerationProvider e) then
    some (imageGenerationProvider e)
  else if truthyEnv e.geminiApiKey then some "gemini"
  else if truthyEnv e.replicateApiToken then some "replicate"
  else if truthyEnv e.huggingFaceToken then some "huggingface"
  else none

/-! ### Startup credential check (`part_005`, lines 37-41) -/

/-- Result of module start: either the process exits (with the given
code) before the JSON-RPC loop starts, or it begins serving tool calls
with the resolved provider. -/
inductive StartupResult where
  | exited (code : Nat)
  | serving (provider : String)
deriving DecidableEq

/-- Startup of the image-generation server: `process.exit(1)` when
`getActiveProvider()` returns null, before `main()` ever runs
(`part_005`, lines 37-41). -/
def imageServerStartup (e : Env) : StartupResult :=
  match getActiveProvider e with
  | none => .exited 1
  | some p => .serving p

/-! ### Claim C1 -/

/-- Case analysis behind claim C1, over plain values: the source's
selection chain agrees with the spec's selection chain, and the override
is selected exactly when its credential is present. -/
lemma selector_eq_aux (ov : String) (g r hf : Bool) :
    ((if ov == "replicate" && r then some "replicate"
      else if ov == "huggingface" && hf then some "huggingface"
      else if g then some "gemini"
      else if r then some "replicate"
      else if hf then some "huggingface"
      else (none : Option String)) =
     (if (if ov == "gemini" then g
          else if ov == "replicate" then r
          else if ov == "huggingface" then hf
          else false) then some ov
      else if g then some "gemini"
      else if r then some "replicate"
      else if hf then some "huggingface"
      else none)) ∧
    (((if ov == "replicate" && r then some "replicate"
      else if ov == "huggingface" && hf then some "huggingface"
      else if g then some "gemini"
      else if r then some "replicate"
      else if hf then some "huggingface"
      else (none : Option String)) = some ov) ↔
     (if ov == "gemini" then g
      else if ov == "replicate" then r
      else if ov == "huggingface" then hf
      else false) = true) := by
  by_cases h1 : ov = "gemini"
  · subst h1
    cases g <;> cases r <;> cases hf <;> decide
  · by_cases h2 : ov = "replicate"
    · subst h2
      cases g <;> cases r <;> cases hf <;> decide
    · by_cases h3 : ov = "huggingface"
      · subst h3
        cases g <;> cases r <;> cases hf <;> decide
      · have e1 : (ov == "gemini") = false := beq_eq_false_iff_ne.mpr h1
        have e2 : (ov == "replicate") = false := beq_eq_false_iff_ne.mpr h2
        have e3 : (ov == "huggingface") = false := beq_eq_false_iff_ne.mpr h3
        simp only [e1, e2, e3, Bool.false_and, Bool.false_eq_true, if_false]
        cases g <;> cases r <;> cases hf <;>
          simp [Option.some.injEq, Ne.symm h1, Ne.symm h2, Ne.symm h3]

/-- Claim C1: for every combination of the environment inputs, the
provider selector returns the explicitly overridden provider if and only
if that provider's credential is present, and otherwise falls back to
gemini, then replicate, then huggingface by credential presence, and to
no provider when no credential is present.  Stated as: `getActiveProvider`
agrees with the selector written from the spec's words, and the override
is returned exactly when its credential is present. -/
theorem c1_provider_selection (e : Env) :
    getActiveProvider e = specSelectedProvider e ∧
      (getActiveProvider e = some (imageGenerationProvider e) ↔
        credentialFor e (imageGenerationProvider e) = true) :=
  selector_eq_aux (imageGenerationProvider e) (truthyEnv e.geminiApiKey)
    (truthyEnv e.replicateApiToken) (truthyEnv e.huggingFaceToken)

/-! ### Claim C7 -/

/-- Claim C7: if none of the recognized credential environment variables
(`GEMINI_API_KEY`, `REPLICATE_API_TOKEN`, `HUGGING_FACE_TOKEN`) is set,
the provider selector resolves to no provider and process startup exits
with code 1, before the JSON-RPC loop (`main()`) that processes tool
invocations ever starts. -/
theorem c7_startup_exits_without_credentials (e : Env)
    (hg : e.geminiApiKey = none) (hr : e.replicateApiToken = none)
    (hh : e.huggingFaceToken = none) :
    getActiveProvider e = none ∧ imageServerStartup e = .exited 1 := by
  have hsel : getActiveProvider e = none := by
    simp [getActiveProvider, truthyEnv, hg, hr, hh]
  exact ⟨hsel, by simp [imageServerStartup, hsel]⟩

/-- Witness for C7 at a concrete environment: no credentials set, with an
explicit provider override requested. -/
theorem c7_startup_witness :
    getActiveProvider ⟨none, none, none, some "replicate"⟩ = none ∧
      imageServerStartup ⟨none, none, none, some "replicate"⟩ = .exited 1 :=
  c7_startup_exits_without_credentials ⟨none, none, none, some "replicate"⟩ rfl rfl rfl

/-! ### Replicate predictions and polling loops

Every backend call in the repository that uses Replicate's asynchronous
prediction API polls with the same shape of loop.  A `Prediction` models
the JSON body returned by the create/status endpoints: its `status`, its
`error` text (read only when `status` is `"failed"`), and its `output`
field.  A polling run is driven by a `stream`: `stream n` is the
prediction returned by the n-th status GET (counting from 0). -/

/-- The output field of a Replicate prediction, as far as the code
inspects it: a string, an array, an object with a `mesh` field, or
something else (modelled as `nil`). -/
inductive RepOut where
  | str (s : List Char)
  | arr (xs : List RepOut)
  | obj (mesh : Option RepOut)
  | nil

/-- A Replicate prediction body: status, error text and output. -/
structure Prediction where
  status : String
  error : String
  output : RepOut

/-- The terminal-status test used (negated) by every polling guard in the
repository: `status !== "succeeded" && status !== "failed"`. -/
def isTerminal (s : String) : Bool := s == "succeeded" || s == "failed"

/-- The uncapped polling loop shared by `generateImageReplicate`,
`editImageReplicate` and `removeBackgroundReplicate`
(`src/unnamed/part_005`, lines 177-184, 218-225, 256-263) and
`generateSoundReplicate` (`src/sound-generation/mcp-server.js`, lines
106-113): `while (status !== "succeeded" && status !== "failed") {
sleep; status = GET }`.  The source loop has no attempt cap, so the
embedding carries explicit `fuel`; `none` means the loop is still
polling after `fuel` status GETs.  `polls` counts the GETs performed so
far and indexes the stream. -/
def pollUncappedFrom (stream : Nat → Prediction) :
    Prediction → Nat → Nat → Option (Prediction × Nat)
  | p, polls, 0 => if isTerminal p.status then some (p, polls) else none
  | p, polls, fuel + 1 =>
    if isTerminal p.status then some (p, polls)
    else pollUncappedFrom stream (stream polls) (polls + 1) fuel

/-- A terminal prediction stops the uncapped loop immediately, whatever
fuel remains. -/
lemma pollUncapped_terminal (stream : Nat → Prediction) (p : Prediction)
    (polls fuel : Nat) (h : isTerminal p.status = true) :
    pollUncappedFrom stream p polls fuel = some (p, polls) := by
  cases fuel <;> simp [pollUncappedFrom, h]

/-- If every polled status is non-terminal, the uncapped loop is still
polling after any amount of fuel. -/
lemma pollUncapped_never (stream : Nat → Prediction)
    (hs : ∀ n, isTerminal (stream n).status = false) :
    ∀ (fuel : Nat) (p : Prediction) (polls : Nat),
      isTerminal p.status = false →
      pollUncappedFrom stream p polls fuel = none := by
  intro fuel
  induction fuel with
  | zero => intro p polls hp; simp [pollUncappedFrom, hp]
  | succ n ih =>
    intro p polls hp
    simp only [pollUncappedFrom, hp, Bool.false_eq_true, if_false]
    exact ih _ _ (hs polls)

/-- If the k-th status GET is the first terminal observation, the
uncapped loop stops there, having performed exactly k+1 GETs. -/
lemma pollUncapped_first_terminal (stream : Nat → Prediction) :
    ∀ (k : Nat) (p : Prediction) (polls fuel : Nat),
      isTerminal p.status = false →
      (∀ j, j < k → isTerminal (stream (polls + j)).status = false) →
      isTerminal (stream (polls + k)).status = true →
      k < fuel →
      pollUncappedFrom stream p polls fuel = some (stream (polls + k), polls + k + 1) := by
  intro k
  induction k with
  | zero =>
    intro p polls fuel hp _ ht hf
    cases fuel with
    | zero => omega
    | succ f =>
      simp only [pollUncappedFrom, hp, Bool.false_eq_true, if_false]
      have := pollUncapped_terminal stream (stream polls) (polls + 1) f (by simpa using ht)
      simpa using this
  | succ k ih =>
    intro p polls fuel hp hj ht hf
    cases fuel with
    | zero => omega
    | succ f =>
      simp only [pollUncappedFrom, hp, Bool.false_eq_true, if_false]
      have h0 : isTerminal (stream polls).status = false := by
        have := hj 0 (Nat.succ_pos k)
        simpa using this
      have hj' : ∀ j, j < k → isTerminal (stream (polls + 1 + j)).status = false := by
        intro j hjk
        have := hj (j + 1) (by omega)
        rwa [show polls + 1 + j = polls + (j + 1) from by omega]
      have ht' : isTerminal (stream (polls + 1 + k)).status = true := by
        rwa [show polls + 1 + k = polls + (k + 1) from by omega]
      have hrec := ih (stream polls) (polls + 1) f h0 hj' ht' (by omega)
      rw [show polls + 1 + k = polls + (k + 1) from by omega] at hrec
      exact hrec

/-- A non-terminal status is neither `"failed"` nor `"succeeded"`. -/
lemma nonterminal_ne (s : String) (h : isTerminal s = false) :
    (s == "failed") = false ∧ (s == "succeeded") = false := by
  simp only [isTerminal, Bool.or_eq_false_iff] at h
  exact ⟨h.2, h.1⟩

/-! ### The capped mesh polling loop (`src/unnamed/part_006`) -/

/-- The attempt cap of the mesh server's polling loop
(`part_006`, line 583: `const maxAttempts = 120`). -/
def meshMaxAttempts : Nat := 120

/-- The polling loop of `generateMeshReplicate` (`part_006`, lines
582-594): `while (status non-terminal && attempts < maxAttempts) {
sleep 5s; attempts++; status = GET }`.  `attempts` is the number of
status GETs performed so far; `remaining` is `maxAttempts - attempts`.
Returns the final prediction together with the attempts used. -/
def meshPollLoop (stream : Nat → Prediction) :
    Prediction → Nat → Nat → Prediction × Nat
  | p, attempts, 0 => (p, attempts)
  | p, attempts, remaining + 1 =>
    if isTerminal p.status then (p, attempts)
    else meshPollLoop stream (stream attempts) (attempts + 1) remaining

/-- A terminal prediction stops the mesh loop immediately. -/
lemma meshPoll_terminal (stream : Nat → Prediction) (p : Prediction)
    (attempts remaining : Nat) (h : isTerminal p.status = true) :
    meshPollLoop stream p attempts remaining = (p, attempts) := by
  cases remaining <;> simp [meshPollLoop, h]

/-- If every polled status is non-terminal, the mesh loop exhausts its
remaining attempts exactly and ends on a non-terminal prediction. -/
lemma meshPoll_never (stream : Nat → Prediction)
    (hs : ∀ n, isTerminal (stream n).status = false) :
    ∀ (remaining : Nat) (p : Prediction) (attempts : Nat),
      isTerminal p.status = false →
      (meshPollLoop stream p attempts remaining).2 = attempts + remaining ∧
        isTerminal (meshPollLoop stream p attempts remaining).1.status = false := by
  intro remaining
  induction remaining with
  | zero => intro p attempts hp; simp [meshPollLoop, hp]
  | succ n ih =>
    intro p attempts hp
    simp only [meshPollLoop, hp, Bool.false_eq_true, if_false]
    have := ih (stream attempts) (attempts + 1) (hs attempts)
    exact ⟨by rw [this.1]; omega, this.2⟩

/-- If the k-th status GET is the first terminal observation and k is
below the remaining attempts, the mesh loop stops there, with exactly
k+1 attempts used. -/
lemma meshPoll_first_terminal (stream : Nat → Prediction) :
    ∀ (k : Nat) (p : Prediction) (attempts remaining : Nat),
      isTerminal p.status = false →
      (∀ j, j < k → isTerminal (stream (attempts + j)).status = false) →
      isTerminal (stream (attempts + k)).status = true →
      k < remaining →
      meshPollLoop stream p attempts remaining = (stream (attempts + k), attempts + k + 1) := by
  intro k
  induction k with
  | zero =>
    intro p attempts remaining hp _ ht hr
    cases remaining with
    | zero => omega
    | succ n =>
      simp only [meshPollLoop, hp, Bool.false_eq_true, if_false]
      have := meshPoll_terminal stream (stream attempts) (attempts + 1) n (by simpa using ht)
      simpa using this
  | succ k ih =>
    intro p attempts remaining hp hj ht hr
    cases remaining with
    | zero => omega
    | succ n =>
      simp only [meshPollLoop, hp, Bool.false_eq_true, if_false]
      have h0 : isTerminal (stream attempts).status = false := by
        have := hj 0 (Nat.succ_pos k)
        simpa using this
      have hj' : ∀ j, j < k → isTerminal (stream (attempts + 1 + j)).status = false := by
        intro j hjk
        have := hj (j + 1) (by omega)
        rwa [show attempts + 1 + j = attempts + (j + 1) from by omega]
      have ht' : isTerminal (stream (attempts + 1 + k)).status = true := by
        rwa [show attempts + 1 + k = attempts + (k + 1) from by omega]
      have hrec := ih (stream attempts) (attempts + 1) n h0 hj' ht' (by omega)
      rw [show attempts + 1 + k = attempts + (k + 1) from by omega] at hrec
      exact hrec

/-! ### Mesh output extraction (`part_006`, lines 604-628) -/

/-- JavaScript `a || b` on values that are strings or `undefined`: `a`
wins when it is truthy, i.e. present and non-empty. -/
def jsOr (a b : Option (List Char)) : Option (List Char) :=
  match a with
  | some s => if s = [] then b else some s
  | none => b

/-- `toLowerCase()` on a JS string modelled as a character list. -/
def lowerL (l : List Char) : List Char := l.map Char.toLower

/-- `u.toLowerCase().endsWith(suffix)`. -/
def lowerEndsWith (u suffix : List Char) : Bool := suffix.isSuffixOf (lowerL u)

/-- The string payload of an output element, when it is a string
(`output.filter((u) => typeof u === "string")`). -/
def asStr : RepOut → Option (List Char)
  | .str s => some s
  | _ => none

/-- The array-branch selection of `generateMeshReplicate` (`part_006`,
lines 608-612): `stringUrls.find(.obj) || stringUrls.find(not .gif) ||
stringUrls[0]`, with JavaScript `||` falsiness (an empty string loses). -/
def selectMeshUrl (stringUrls : List (List Char)) : Option (List Char) :=
  jsOr (stringUrls.find? (fun u => lowerEndsWith u ".obj".toList))
    (jsOr (stringUrls.find? (fun u => !(lowerEndsWith u ".gif".toList)))
      stringUrls.head?)

/-- The full output-shape probing of `generateMeshReplicate`
(`part_006`, lines 604-628): non-empty array → `selectMeshUrl` over its
string elements; string → itself; object → its `mesh` field (string, or
non-empty array probed for `.obj` then first element); anything else →
no URL.  An empty array falls through `Array.isArray(output) &&
output.length > 0` and `typeof output === "string"` into the object
branch, where `output.mesh` is `undefined`, so it also yields no URL. -/
def extractMeshUrl : RepOut → Option (List Char)
  | .arr xs =>
    if xs.length > 0 then selectMeshUrl (xs.filterMap asStr) else none
  | .str s => some s
  | .obj m =>
    match m with
    | some (.str s) => some s
    | some (.arr ms) =>
      if ms.length > 0 then
        let meshArray := ms.filterMap asStr
        jsOr (meshArray.find? (fun u => lowerEndsWith u ".obj".toList))
          meshArray.head?
      else none
    | _ => none
  | .nil => none

/-! ### Run-level results of the polling backends -/

/-- What `generateImageReplicate` does after its polling loop
(`part_005`, lines 186-191): reject on `failed` carrying the backend
error, otherwise fetch `prediction.output[0]`. -/
inductive ImageJobResult where
  | jobFailed (msg : String)
  | artifactFetch (o : RepOut)

/-- `prediction.output[0]` (`part_005`, line 189): the first array
element; anything else is modelled as `nil` (the claims never reach this
case on non-arrays). -/
def headOut : RepOut → RepOut
  | .arr (x :: _) => x
  | _ => .nil

/-- The post-loop decision of `generateImageReplicate` (`part_005`,
lines 186-191). -/
def imageDecision (p : Prediction) : ImageJobResult :=
  if p.status == "failed" then
    .jobFailed ("Replicate generation failed: " ++ p.error)
  else .artifactFetch (headOut p.output)

/-- A complete run of `generateImageReplicate` after the create call:
`p0` is the create response (`Prefer: wait`), `stream` the status GETs,
`fuel` the observation budget of the model (the source loop is
uncapped).  `none` means the loop is still polling after `fuel` GETs;
otherwise the decision and the number of GETs performed are returned. -/
def generateImageReplicateRun (stream : Nat → Prediction) (p0 : Prediction)
    (fuel : Nat) : Option (ImageJobResult × Nat) :=
  match pollUncappedFrom stream p0 0 fuel with
  | none => none
  | some (p, polls) => some (imageDecision p, polls)

/-- What `generateMeshReplicate` does after its polling loop
(`part_006`, lines 596-636). -/
inductive MeshJobResult where
  | jobFailed (msg : String)
  | jobTimeout (msg : String)
  | invalidOutput (msg : String)
  | artifactFetch (url : List Char)

/-- The timeout message of the mesh server (`part_006`, line 601). -/
def meshTimeoutMsg : String :=
  "Mesh generation timeout after " ++ toString (meshMaxAttempts * 5) ++
    " seconds. The model may be overloaded."

/-- The missing-output message of the mesh server (`part_006`, line 627). -/
def noMeshMsg : String := "No mesh output URL received from Shap-E prediction."

/-- The post-loop decision of `generateMeshReplicate` (`part_006`,
lines 596-632): reject on `failed` with the backend error; reject with
the timeout message when the final status is not `succeeded`; otherwise
extract the output URL (`if (!meshUrl) throw`, so a missing or empty URL
rejects) and fetch it. -/
def meshDecision (p : Prediction) : MeshJobResult :=
  if p.status == "failed" then
    .jobFailed ("Mesh generation failed: " ++ p.error)
  else if !(p.status == "succeeded") then .jobTimeout meshTimeoutMsg
  else
    match extractMeshUrl p.output with
    | some u => if u = [] then .invalidOutput noMeshMsg else .artifactFetch u
    | none => .invalidOutput noMeshMsg

/-- A complete run of `generateMeshReplicate` after the create call:
the capped loop followed by the decision, together with the attempts
used. -/
def generateMeshReplicateRun (stream : Nat → Prediction) (p0 : Prediction) :
    MeshJobResult × Nat :=
  let pr := meshPollLoop stream p0 0 meshMaxAttempts
  (meshDecision pr.1, pr.2)

/-- A prediction that is still running. -/
def procPred : Prediction := ⟨"processing", "", .nil⟩

/-- A prediction that has failed with error text `boom`. -/
def failPred : Prediction := ⟨"failed", "boom", .nil⟩

/-! ### Claim C2 -/

/-- Rejection shape of the uncapped run when polling never ends. -/
lemma generateImageRun_none (stream : Nat → Prediction) (p0 : Prediction)
    (fuel : Nat) (h : pollUncappedFrom stream p0 0 fuel = none) :
    generateImageReplicateRun stream p0 fuel = none := by
  simp [generateImageReplicateRun, h]

/-- Counterexample to claim C2 as stated: the claim asserts that every
polling loop (image generation among them) caps its attempts and rejects
with a timeout when the cap is reached.  But the image-generation loop
(`part_005`, lines 177-184) has no attempt cap: on a job that stays in
status `processing`, after one million status polls the call has neither
returned nor rejected — it is still polling. -/
theorem c2_counterexample_image_loop_uncapped :
    generateImageReplicateRun (fun _ => procPred) procPred 1000000 = none :=
  generateImageRun_none (fun _ => procPred) procPred 1000000
    (pollUncapped_never (fun _ => procPred) (fun _ => rfl) 1000000 procPred 0 rfl)

/-- Claim C2, amended: polling iterates only while the observed status
is non-terminal; only the mesh-generation loop additionally caps
attempts (at 120), and when the status stays non-terminal throughout,
the mesh call rejects with its timeout error after exactly 120 polling
attempts, while the image-generation (and edit / background-removal /
sound, which share the same uncapped loop) calls poll indefinitely and
never reject with a timeout. -/
theorem c2_amended_only_mesh_caps (stream : Nat → Prediction)
    (p0 : Prediction) (fuel : Nat)
    (h0 : isTerminal p0.status = false)
    (hs : ∀ n, isTerminal (stream n).status = false) :
    generateMeshReplicateRun stream p0 = (.jobTimeout meshTimeoutMsg, meshMaxAttempts) ∧
      generateImageReplicateRun stream p0 fuel = none := by
  constructor
  · obtain ⟨hn2, hn1⟩ := meshPoll_never stream hs meshMaxAttempts p0 0 h0
    have hne := nonterminal_ne _ hn1
    have hdec : meshDecision (meshPollLoop stream p0 0 meshMaxAttempts).1 =
        .jobTimeout meshTimeoutMsg := by
      simp [meshDecision, hne.1, hne.2]
    simp [generateMeshReplicateRun, hdec, hn2]
  · exact generateImageRun_none stream p0 fuel
      (pollUncapped_never stream hs fuel p0 0 h0)

/-- Witness for the amended C2 at a concrete job that never leaves
status `processing`. -/
theorem c2_amended_witness :
    generateMeshReplicateRun (fun _ => procPred) procPred =
        (.jobTimeout meshTimeoutMsg, meshMaxAttempts) ∧
      generateImageReplicateRun (fun _ => procPred) procPred 77 = none :=
  c2_amended_only_mesh_caps (fun _ => procPred) procPred 77 (by decide)
    (fun _ => rfl)

/-! ### Claim C3 -/

/-- Claim C3: for a job whose observed status becomes `failed` (first at
the k-th status GET, every earlier observation non-terminal), both the
uncapped image-generation run and the capped mesh run reject with an
error carrying the backend's error text, perform no further status polls
(exactly k+1 GETs happen) and perform no artifact fetch (the result is
`jobFailed`, not `artifactFetch`). -/
theorem c3_failed_stops_polling (stream : Nat → Prediction) (p0 : Prediction)
    (k fuel : Nat)
    (h0 : isTerminal p0.status = false)
    (hk : ∀ j, j < k → isTerminal (stream j).status = false)
    (hf : (stream k).status = "failed")
    (hfuel : k < fuel) (hcap : k < meshMaxAttempts) :
    generateImageReplicateRun stream p0 fuel =
        some (.jobFailed ("Replicate generation failed: " ++ (stream k).error), k + 1) ∧
      generateMeshReplicateRun stream p0 =
        (.jobFailed ("Mesh generation failed: " ++ (stream k).error), k + 1) := by
  have ht : isTerminal (stream k).status = true := by rw [hf]; decide
  have hk0 : ∀ j, j < k → isTerminal (stream (0 + j)).status = false := by
    intro j hj; simpa using hk j hj
  have ht0 : isTerminal (stream (0 + k)).status = true := by simpa using ht
  have hdec : imageDecision (stream k) =
      .jobFailed ("Replicate generation failed: " ++ (stream k).error) := by
    simp [imageDecision, hf]
  have hdecm : meshDecision (stream k) =
      .jobFailed ("Mesh generation failed: " ++ (stream k).error) := by
    simp [meshDecision, hf]
  constructor
  · have hloop := pollUncapped_first_terminal stream k p0 0 fuel h0 hk0 ht0 hfuel
    rw [Nat.zero_add] at hloop
    simp [generateImageReplicateRun, hloop, hdec]
  · have hloop := meshPoll_first_terminal stream k p0 0 meshMaxAttempts h0 hk0 ht0 hcap
    rw [Nat.zero_add] at hloop
    simp [generateMeshReplicateRun, hloop, hdecm]

/-- Witness for C3: the first status GET already reports `failed` with
error text `boom`; both runs reject with the backend text after exactly
one poll. -/
theorem c3_failed_witness :
    generateImageReplicateRun (fun _ => failPred) procPred 9 =
        some (.jobFailed ("Replicate generation failed: " ++ "boom"), 1) ∧
      generateMeshReplicateRun (fun _ => failPred) procPred =
        (.jobFailed ("Mesh generation failed: " ++ "boom"), 1) := by
  simpa using c3_failed_stops_polling (fun _ => failPred) procPred 0 9
    (by decide) (fun j hj => absurd hj (Nat.not_lt_zero j)) rfl
    (by decide) (by decide)

/-! ### Claim C4 -/

/-- Mesh-URL selection as claim C4 words it: the `.obj` URL if one
exists, else the first non-`.gif` string URL, else the first element.
This definition follows the claim's words and is compared against
`selectMeshUrl` / `extractMeshUrl`, which follow the source. -/
def specSelectMeshUrl (urls : List (List Char)) : Option (List Char) :=
  match urls.find? (fun u => lowerEndsWith u ".obj".toList) with
  | some u => some u
  | none =>
    match urls.find? (fun u => !(lowerEndsWith u ".gif".toList)) with
    | some u => some u
    | none => urls.head?

/-- A URL selected by the `.obj` probe is non-empty (it carries a
four-character suffix). -/
lemma find_obj_ne_nil {urls : List (List Char)} {u : List Char}
    (h : urls.find? (fun u => lowerEndsWith u ".obj".toList) = some u) :
    u ≠ [] := by
  have hp := List.find?_some h
  intro he
  subst he
  have hfalse : lowerEndsWith [] ".obj".toList = false := by decide
  rw [hfalse] at hp
  exact absurd hp (by simp)

/-- The string elements of an all-string output array are the array
itself. -/
lemma filterMap_asStr_map (urls : List (List Char)) :
    (urls.map RepOut.str).filterMap asStr = urls := by
  induction urls with
  | nil => rfl
  | cons a t ih => simp [List.filterMap_cons, asStr, ih]

/-- Characterization of the source's array-branch selection, exposing
the JavaScript `||` behaviour: an empty first non-`.gif` URL loses to
the first element. -/
lemma selectMeshUrl_eq (urls : List (List Char)) :
    selectMeshUrl urls =
      match urls.find? (fun u => lowerEndsWith u ".obj".toList) with
      | some u => some u
      | none =>
        match urls.find? (fun u => !(lowerEndsWith u ".gif".toList)) with
        | some u => if u = [] then urls.head? else some u
        | none => urls.head? := by
  unfold selectMeshUrl
  rcases hobj : urls.find? (fun u => lowerEndsWith u ".obj".toList) with _ | u
  · rcases hgif : urls.find? (fun u => !(lowerEndsWith u ".gif".toList)) with _ | v
    · rfl
    · simp [jsOr]
  · have hne : u ≠ [] := find_obj_ne_nil hobj
    simp [jsOr, hne]

/-- Counterexample to claim C4 as stated: on the succeeded output list
`["a.gif", ""]` (all string URLs, none ending in `.obj`), the claim's
rule selects the first non-`.gif` string URL, the empty string — but the
source's `find(...) || find(...) || stringUrls[0]` chain treats the
found empty string as falsy and falls through to the first element
`"a.gif"`. -/
theorem c4_counterexample_empty_url :
    extractMeshUrl (.arr [.str "a.gif".toList, .str []]) = some "a.gif".toList ∧
      specSelectMeshUrl ["a.gif".toList, []] = some [] ∧
      some "a.gif".toList ≠ (some ([] : List Char)) := by
  refine ⟨by decide, by decide, by decide⟩

/-- Claim C4, amended: on a succeeded prediction whose output is a list
of string URLs, the extractor selects the first `.obj` URL
(case-insensitively) if one exists; otherwise the first non-`.gif`
string URL provided it is non-empty; and it falls back to the first
element when every string URL ends in `.gif` or when the first
non-`.gif` URL is the empty string. -/
theorem c4_amended_extractor (urls : List (List Char)) :
    extractMeshUrl (.arr (urls.map RepOut.str)) =
      match urls.find? (fun u => lowerEndsWith u ".obj".toList) with
      | some u => some u
      | none =>
        match urls.find? (fun u => !(lowerEndsWith u ".gif".toList)) with
        | some u => if u = [] then urls.head? else some u
        | none => urls.head? := by
  cases urls with
  | nil => rfl
  | cons a t =>
    have hlen : (((a :: t).map RepOut.str).length > 0) := by simp
    simp only [extractMeshUrl]
    rw [if_pos hlen, filterMap_asStr_map]
    exact selectMeshUrl_eq (a :: t)

/-! ### The Node `path` functions used by the dispatcher

File paths are modelled as character lists.  Only the cases exercised by
the dispatcher are modelled: paths with a non-empty directory part and a
file name, as produced by `path.resolve`. -/

/-- Split a list at the last occurrence of `c`: `some (pre, post)` with
`l = pre ++ c :: post` and `c ∉ post`, or `none` when `c` does not
occur. -/
def breakLast (c : Char) : List Char → Option (List Char × List Char)
  | [] => none
  | x :: xs =>
    match breakLast c xs with
    | some (pre, post) => some (x :: pre, post)
    | none => if x = c then some ([], xs) else none

lemma breakLast_of_not_mem {c : Char} :
    ∀ {l : List Char}, c ∉ l → breakLast c l = none := by
  intro l
  induction l with
  | nil => intro _; rfl
  | cons x xs ih =>
    intro h
    have hx : x ≠ c := fun he => h (he ▸ List.mem_cons_self x xs)
    have hxs : c ∉ xs := fun hm => h (List.mem_cons_of_mem x hm)
    simp [breakLast, ih hxs, hx]

lemma breakLast_append {c : Char} (pre post : List Char) (h : c ∉ post) :
    breakLast c (pre ++ c :: post) = some (pre, post) := by
  induction pre with
  | nil => simp [breakLast, breakLast_of_not_mem h]
  | cons x xs ih => simp [breakLast, ih]

/-- `path.dirname`: everything before the last `/` (the dispatcher only
applies it to resolved paths with a directory part). -/
def dirnameL (p : List Char) : List Char :=
  match breakLast '/' p with
  | some (pre, _) => pre
  | none => ['.']

/-- The basename part of a path: everything after the last `/`. -/
def baseL (p : List Char) : List Char :=
  match breakLast '/' p with
  | some (_, post) => post
  | none => p

/-- `path.extname` restricted to a basename: from the last `.` to the
end, empty for dotfiles and extension-less names. -/
def extFromBase (b : List Char) : List Char :=
  match breakLast '.' b with
  | some (pre, post) => if pre = [] then [] else '.' :: post
  | none => []

/-- `path.extname`. -/
def extnameL (p : List Char) : List Char := extFromBase (baseL p)

/-- `path.basename(p, ext)`: the basename with `ext` stripped when it is
a proper suffix. -/
def basenameL (p ext : List Char) : List Char :=
  let b := baseL p
  if ext ≠ [] ∧ ext.isSuffixOf b = true ∧ b ≠ ext then
    b.take (b.length - ext.length)
  else b

/-- `path.join(a, b)` for the shapes the dispatcher produces. -/
def joinL (a b : List Char) : List Char :=
  if a = [] then b
  else if a = ['.'] then b
  else if a.getLast? = some '/' then a ++ b
  else a ++ '/' :: b

lemma dirnameL_append (dir post : List Char) (h : ('/' : Char) ∉ post) :
    dirnameL (dir ++ '/' :: post) = dir := by
  simp [dirnameL, breakLast_append dir post h]

lemma baseL_append (dir post : List Char) (h : ('/' : Char) ∉ post) :
    baseL (dir ++ '/' :: post) = post := by
  simp [baseL, breakLast_append dir post h]

lemma joinL_eq (a b : List Char) (h1 : a ≠ []) (h2 : a ≠ ['.'])
    (h3 : a.getLast? ≠ some '/') : joinL a b = a ++ '/' :: b := by
  simp [joinL, h1, h2, h3]

/-! ### The tool dispatcher (`part_005`) -/

/-- The success envelope returned by the dispatcher: the written paths
in order plus a human-readable message naming the provider. -/
structure Envelope where
  outputPaths : List (List Char)
  message : String

/-- The output paths of the multi-candidate fan-out shared by
`generateImageFromText` (`part_005`, lines 451-472) and `editImage`
(lines 508-528): candidate 0 goes to the resolved output path,
candidate i (i ≥ 1) to `path.join(dir, name + "_" + (i+1) + ext)`. -/
def multiOutputPaths (resolvedOutputPath : List Char) (n : Nat) : List (List Char) :=
  let dir := dirnameL resolvedOutputPath
  let ext := extnameL resolvedOutputPath
  let name := basenameL resolvedOutputPath ext
  (List.range n).map (fun i =>
    if i = 0 then resolvedOutputPath
    else joinL dir (name ++ '_' :: Nat.toDigits 10 (i + 1) ++ ext))

/-- A run of `generateImageFromText` (`part_005`, lines 437-483), after
the provider branch: `providerImages` is the candidate buffer list the
active provider returned (buffers are opaque identifiers), or the error
it threw, which the dispatcher rethrows unchanged.  `writes` records the
`fs.writeFileSync` calls in order. -/
structure RunImage where
  result : Except String Envelope
  writes : List (List Char × Nat)

def generateImageFromText (providerImages : Except String (List Nat))
    (outputPath : List Char) (activeProvider : String) : RunImage :=
  match providerImages with
  | .error e => ⟨.error e, []⟩
  | .ok bufs =>
    let paths := multiOutputPaths outputPath bufs.length
    ⟨.ok ⟨paths, "Image(s) generated successfully using " ++ activeProvider⟩,
      paths.zip bufs⟩

/-- The MIME lookup table of `editImage` / `removeBackground`
(`part_005`, lines 493-494 and 549-550), applied to the lowercased
extension. -/
def mimeLookup (ext : List Char) : Option String :=
  if ext = ".png".toList then some "image/png"
  else if ext = ".jpg".toList then some "image/jpeg"
  else if ext = ".jpeg".toList then some "image/jpeg"
  else if ext = ".gif".toList then some "image/gif"
  else if ext = ".webp".toList then some "image/webp"
  else none

/-- `mimeTypes[ext] || "image/png"`: the JS `||` default on a lookup
miss. -/
def mimeTypeOf (loweredExt : List Char) : String :=
  (mimeLookup loweredExt).getD "image/png"

/-- A run of `editImage` (`part_005`, lines 485-539): source existence
is checked before anything else; then the MIME type is computed from the
lowercased source extension; then the active provider is called once
(`providerMimes` records the MIME types transmitted, in order); then the
fan-out writes happen.  A provider error is rethrown unchanged. -/
structure RunEdit where
  result : Except String Envelope
  providerMimes : List String
  writes : List (List Char × Nat)

def editImage (sourceExists : Bool) (sourcePath : List Char)
    (providerImages : Except String (List Nat)) (outputPath : List Char)
    (activeProvider : String) : RunEdit :=
  match sourceExists with
  | false => ⟨.error ("Image file not found: " ++ String.mk sourcePath), [], []⟩
  | true =>
    let mime := mimeTypeOf (lowerL (extnameL sourcePath))
    match providerImages with
    | .error e => ⟨.error e, [mime], []⟩
    | .ok bufs =>
      let paths := multiOutputPaths outputPath bufs.length
      ⟨.ok ⟨paths, "Image(s) edited successfully using " ++ activeProvider⟩,
        [mime], paths.zip bufs⟩

/-- A run of `removeBackground` (`part_005`, lines 541-602): source
existence first; then, when `REPLICATE_API_TOKEN` is present, the
Replicate attempt (whose failure is logged and swallowed); then, when no
buffer was produced, the Hugging Face attempt, whose failure propagates
to the outer catch and is rethrown unchanged.  Since a returned JS
`Buffer` is always truthy, the source's final `Background removal failed
with all available providers.` throw (line 574) is unreachable: the
Hugging Face branch either throws or yields a buffer.  `attempts`
records the providers tried in order; `replicateMime` the MIME type
transmitted to the Replicate attempt, if any. -/
structure RunRB where
  result : Except String Envelope
  attempts : List String
  replicateMime : Option String
  writes : List (List Char × Nat)

def removeBackground (sourceExists : Bool) (sourcePath : List Char)
    (hasReplicateToken : Bool) (replicateResult : Except String Nat)
    (hfResult : Except String Nat) (outputPath : Option (List Char)) : RunRB :=
  match sourceExists with
  | false => ⟨.error ("Image file not found: " ++ String.mk sourcePath), [], none, []⟩
  | true =>
    let ext := lowerL (extnameL sourcePath)
    let mime := mimeTypeOf ext
    let rep : Option Nat :=
      if hasReplicateToken then
        match replicateResult with
        | .ok b => some b
        | .error _ => none
      else none
    let att : List String := if hasReplicateToken then ["Replicate"] else []
    let rmime : Option String := if hasReplicateToken then some mime else none
    let outPath : List Char :=
      match outputPath with
      | some p => p
      | none => joinL (dirnameL sourcePath) (basenameL sourcePath ext ++ "_nobg.png".toList)
    match rep with
    | some b =>
      ⟨.ok ⟨[outPath], "Background removed successfully using Replicate"⟩,
        att, rmime, [(outPath, b)]⟩
    | none =>
      match hfResult with
      | .error e => ⟨.error e, att ++ ["Hugging Face"], rmime, []⟩
      | .ok b =>
        ⟨.ok ⟨[outPath], "Background removed successfully using Hugging Face"⟩,
          att ++ ["Hugging Face"], rmime, [(outPath, b)]⟩

/-! ### Claim C5 -/

/-- The file names claim C5 predicts for a requested output path with
base name `img` and extension `.png` in directory `dir`: candidate 0 at
`img.png`, candidate i (i ≥ 1) at `img_{i+1}.png`. -/
def claimedPath (dir : List Char) (i : Nat) : List Char :=
  if i = 0 then dir ++ '/' :: "img.png".toList
  else dir ++ '/' :: ("img_".toList ++ Nat.toDigits 10 (i + 1) ++ ".png".toList)

/-- The fan-out paths for `dir/img.png` are exactly the claimed names,
for any directory part that is non-empty, not `.`, and without a
trailing slash. -/
lemma multiOutputPaths_img (dir : List Char) (n : Nat)
    (h1 : dir ≠ []) (h2 : dir ≠ ['.']) (h3 : dir.getLast? ≠ some '/') :
    multiOutputPaths (dir ++ '/' :: "img.png".toList) n =
      (List.range n).map (claimedPath dir) := by
  have hnm : ('/' : Char) ∉ "img.png".toList := by decide
  have hbase : baseL (dir ++ '/' :: "img.png".toList) = "img.png".toList :=
    baseL_append dir _ hnm
  have hdir : dirnameL (dir ++ '/' :: "img.png".toList) = dir :=
    dirnameL_append dir _ hnm
  have hext : extnameL (dir ++ '/' :: "img.png".toList) = ".png".toList := by
    rw [extnameL, hbase]; decide
  have hname : basenameL (dir ++ '/' :: "img.png".toList) ".png".toList =
      "img".toList := by
    rw [basenameL, hbase]; decide
  simp only [multiOutputPaths, hdir, hext, hname]
  apply List.map_congr_left
  intro i _
  by_cases hi0 : i = 0
  · subst hi0; simp [claimedPath]
  · simp only [claimedPath, if_neg hi0]
    rw [joinL_eq dir _ h1 h2 h3]
    simp

/-- Claim C5: for N candidate buffers returned by the provider (N ≥ 2)
and a requested output path `dir/img.png`, both `generateImageFromText`
and `editImage` write candidate 0 to `dir/img.png` and candidate i
(i ≥ 1) to `dir/img_{i+1}.png`, in candidate order, and the success
envelope lists all N written paths in that order. -/
theorem c5_fanout_naming (dir srcPath : List Char) (bufs : List Nat)
    (prov : String)
    (h1 : dir ≠ []) (h2 : dir ≠ ['.']) (h3 : dir.getLast? ≠ some '/')
    (_hN : 2 ≤ bufs.length) :
    (generateImageFromText (.ok bufs) (dir ++ '/' :: "img.png".toList) prov).result =
        .ok ⟨(List.range bufs.length).map (claimedPath dir),
          "Image(s) generated successfully using " ++ prov⟩ ∧
      (generateImageFromText (.ok bufs) (dir ++ '/' :: "img.png".toList) prov).writes =
        ((List.range bufs.length).map (claimedPath dir)).zip bufs ∧
      (editImage true srcPath (.ok bufs) (dir ++ '/' :: "img.png".toList) prov).result =
        .ok ⟨(List.range bufs.length).map (claimedPath dir),
          "Image(s) edited successfully using " ++ prov⟩ ∧
      (editImage true srcPath (.ok bufs) (dir ++ '/' :: "img.png".toList) prov).writes =
        ((List.range bufs.length).map (claimedPath dir)).zip bufs := by
  have hm := multiOutputPaths_img dir bufs.length h1 h2 h3
  refine ⟨?_, ?_, ?_, ?_⟩ <;> simp only [generateImageFromText, editImage, hm]

/-- Witness for C5: three candidates written to `/tmp/img.png`,
`/tmp/img_2.png`, `/tmp/img_3.png`. -/
theorem c5_fanout_witness :
    (generateImageFromText (.ok [10, 20, 30])
          ("/tmp".toList ++ '/' :: "img.png".toList) "gemini").result =
        .ok ⟨(List.range [10, 20, 30].length).map (claimedPath "/tmp".toList),
          "Image(s) generated successfully using " ++ "gemini"⟩ ∧
      (generateImageFromText (.ok [10, 20, 30])
          ("/tmp".toList ++ '/' :: "img.png".toList) "gemini").writes =
        ((List.range [10, 20, 30].length).map (claimedPath "/tmp".toList)).zip [10, 20, 30] ∧
      (editImage true "src.png".toList (.ok [10, 20, 30])
          ("/tmp".toList ++ '/' :: "img.png".toList) "gemini").result =
        .ok ⟨(List.range [10, 20, 30].length).map (claimedPath "/tmp".toList),
          "Image(s) edited successfully using " ++ "gemini"⟩ ∧
      (editImage true "src.png".toList (.ok [10, 20, 30])
          ("/tmp".toList ++ '/' :: "img.png".toList) "gemini").writes =
        ((List.range [10, 20, 30].length).map (claimedPath "/tmp".toList)).zip [10, 20, 30] :=
  c5_fanout_naming "/tmp".toList "src.png".toList [10, 20, 30] "gemini"
    (by decide) (by decide) (by decide) (by decide)

/-! ### Claim C6 -/

/-- Counterexample to claim C6 as stated: when both providers fail, the
claim says the call rejects with a final all-providers-failed error, but
the source's Hugging Face attempt is not wrapped in a try/catch, so its
error propagates to the outer catch and is rethrown unchanged: the call
rejects with the Hugging Face error text, not with the
`Background removal failed with all available providers.` message (which
is unreachable, a buffer being always truthy). -/
theorem c6_counterexample_hf_error_propagates :
    (removeBackground true "a.png".toList true (.error "Replicate boom")
        (.error "HF boom") (some "out.png".toList)).result = .error "HF boom" ∧
      "HF boom" ≠ "Background removal failed with all available providers." :=
  ⟨rfl, by decide⟩

/-- Claim C6, amended: the Replicate failure is swallowed and Hugging
Face is attempted next; when both providers fail the call rejects with
the Hugging Face provider's error (not with an all-providers-failed
message); and when an attempt succeeds the success envelope names the
provider that actually produced the result. -/
theorem c6_amended_fallback (srcPath outPath : List Char) (er eh : String)
    (b : Nat) (hfAny : Except String Nat) :
    (removeBackground true srcPath true (.error er) (.ok b) (some outPath)).attempts =
        ["Replicate", "Hugging Face"] ∧
      (removeBackground true srcPath true (.error er) (.ok b) (some outPath)).result =
        .ok ⟨[outPath], "Background removed successfully using Hugging Face"⟩ ∧
      (removeBackground true srcPath true (.error er) (.ok b) (some outPath)).writes =
        [(outPath, b)] ∧
      (removeBackground true srcPath true (.error er) (.error eh) (some outPath)).result =
        .error eh ∧
      (removeBackground true srcPath true (.error er) (.error eh) (some outPath)).attempts =
        ["Replicate", "Hugging Face"] ∧
      (removeBackground true srcPath true (.error er) (.error eh) (some outPath)).writes =
        [] ∧
      (removeBackground true srcPath true (.ok b) hfAny (some outPath)).result =
        .ok ⟨[outPath], "Background removed successfully using Replicate"⟩ :=
  ⟨rfl, rfl, rfl, rfl, rfl, rfl, rfl⟩

/-! ### Claim C8 -/

/-- Claim C8: an `edit_image` or `remove_background` invocation whose
source image path does not refer to an existing file rejects with a
file-not-found error before any provider request is issued (no MIME is
ever transmitted, no provider is attempted) and with no file written. -/
theorem c8_source_not_found (srcPath outPath : List Char)
    (pr : Except String (List Nat)) (prov : String) (hasTok : Bool)
    (rep hf : Except String Nat) (outOpt : Option (List Char)) :
    (editImage false srcPath pr outPath prov).result =
        .error ("Image file not found: " ++ String.mk srcPath) ∧
      (editImage false srcPath pr outPath prov).providerMimes = [] ∧
      (editImage false srcPath pr outPath prov).writes = [] ∧
      (removeBackground false srcPath hasTok rep hf outOpt).result =
        .error ("Image file not found: " ++ String.mk srcPath) ∧
      (removeBackground false srcPath hasTok rep hf outOpt).attempts = [] ∧
      (removeBackground false srcPath hasTok rep hf outOpt).writes = [] :=
  ⟨rfl, rfl, rfl, rfl, rfl, rfl⟩

/-! ### Claim C10 -/

/-- Claim C10: when the (case-insensitively compared) extension of an
existing source file is outside `{.png, .jpg, .jpeg, .gif, .webp}`, the
MIME type transmitted to the provider by `editImage` and by the
Replicate attempt of `removeBackground` defaults to `image/png`, and the
operation proceeds to the provider call instead of failing. -/
theorem c10_mime_defaults_to_png (srcPath outPath : List Char)
    (pr : Except String (List Nat)) (prov : String)
    (rep hf : Except String Nat) (outOpt : Option (List Char))
    (hext : lowerL (extnameL srcPath) ∉
      [".png".toList, ".jpg".toList, ".jpeg".toList, ".gif".toList, ".webp".toList]) :
    (editImage true srcPath pr outPath prov).providerMimes = ["image/png"] ∧
      (removeBackground true srcPath true rep hf outOpt).replicateMime =
        some "image/png" := by
  simp only [List.mem_cons, List.not_mem_nil, or_false, not_or] at hext
  obtain ⟨a1, a2, a3, a4, a5⟩ := hext
  have hmiss : mimeLookup (lowerL (extnameL srcPath)) = none := by
    simp only [mimeLookup]
    rw [if_neg a1, if_neg a2, if_neg a3, if_neg a4, if_neg a5]
  have hmime : mimeTypeOf (lowerL (extnameL srcPath)) = "image/png" := by
    simp [mimeTypeOf, hmiss]
  constructor
  · cases pr <;> simp [editImage, hmime]
  · cases rep <;> cases hf <;> simp [removeBackground, hmime]

/-- Witness for C10 at the concrete extension `.bmp`. -/
theorem c10_mime_witness :
    (editImage true "a.bmp".toList (.ok [1]) "o.png".toList "gemini").providerMimes =
        ["image/png"] ∧
      (removeBackground true "a.bmp".toList true (.ok 1) (.ok 2)
          (some "o.png".toList)).replicateMime = some "image/png" :=
  c10_mime_defaults_to_png "a.bmp".toList "o.png".toList (.ok [1]) "gemini"
    (.ok 1) (.ok 2) (some "o.png".toList) (by decide)

/-! ### Model-version resolution (claim C9)

Both the mesh server (`part_006`, lines 522-545) and the sound server
(`src/sound-generation/mcp-server.js`, lines 31-58) resolve a Replicate
model version dynamically and keep a module-level cache.  A run is
driven by an oracle: `oracle n` is the outcome of the (n+1)-th dynamic
version lookup performed by the process. -/

/-- Outcome of one dynamic version lookup: a response whose
`latest_version.id` is the given string, a response without a usable
`latest_version`, or a thrown request error. -/
inductive LookupResult where
  | ok (id : String)
  | missing
  | failed (msg : String)

/-- An oracle with a prescribed first lookup outcome. -/
def oracleCons (a : LookupResult) (f : Nat → LookupResult) : Nat → LookupResult
  | 0 => a
  | n + 1 => f n

namespace MeshServer

/-- The hardcoded known-good Shap-E version hash (`part_006`, line 543). -/
def fallbackVersion : String :=
  "0d348e32f723509b8cd6d20be8c774a2fb6cfe6f442fed892005e327a6f06649"

/-- The mesh server's module state: the `modelVersion` cache and the
number of dynamic lookups performed so far. -/
structure VersionState where
  cache : Option String
  lookups : Nat
deriving DecidableEq

/-- `getModelVersion` of the mesh server (`part_006`, lines 525-545):
return the cache when set; otherwise perform one dynamic lookup; a
response with a truthy `latest_version.id` is cached and returned; a
response without one, or a request error (caught), falls through to the
hardcoded fallback, which is also assigned to the cache before being
returned. -/
def getModelVersion (oracle : Nat → LookupResult) (st : VersionState) :
    String × VersionState :=
  match st.cache with
  | some v => (v, st)
  | none =>
    match oracle st.lookups with
    | .ok id =>
      if id ≠ "" then (id, ⟨some id, st.lookups + 1⟩)
      else (fallbackVersion, ⟨some fallbackVersion, st.lookups + 1⟩)
    | _ => (fallbackVersion, ⟨some fallbackVersion, st.lookups + 1⟩)

end MeshServer

namespace SoundServer

/-- The hardcoded fallback version hashes of the sound server
(`mcp-server.js`, lines 53-55), keyed by model name; an unknown model
name has none and makes the resolver throw. -/
def fallbackVersion (modelName : String) : Option String :=
  if modelName == "sepal/audiogen" then
    some "154b3e5141493cb1b8cec976d9aa90f2b691137e39ad906d2421b74c2a8c52b8"
  else if modelName == "haoheliu/audio-ldm" then
    some "b61392adecdd660326fc9cfc5398182437dbe5e97b5decfb36e1a36de68b5b95"
  else if modelName == "stability-ai/stable-audio-2.5" then
    some "a61ac8edbb27cd2eda1b2eff2bbc03dcff1131f5560836ff77a052df05b77491"
  else none

/-- The sound server's module state: the `modelVersions` object (newest
entry first, shadowing older ones) and the number of dynamic lookups
performed. -/
structure VersionState where
  cache : List (String × String)
  lookups : Nat

/-- The truthiness test `if (modelVersions[modelName])`: a cached empty
string is falsy and misses. -/
def cachedVersion (st : VersionState) (modelName : String) : Option String :=
  match st.cache.lookup modelName with
  | some v => if v ≠ "" then some v else none
  | none => none

/-- `getModelVersion` of the sound server (`mcp-server.js`, lines
34-58): return the cached value when truthy; otherwise perform one
dynamic lookup; a response with a `latest_version` is cached and its id
returned; otherwise (missing version, or a caught request error) the
hardcoded per-model fallback is returned — without being cached — and an
unknown model name throws. -/
def getModelVersion (oracle : Nat → LookupResult) (modelName : String)
    (st : VersionState) : Except String String × VersionState :=
  match cachedVersion st modelName with
  | some v => (.ok v, st)
  | none =>
    match oracle st.lookups with
    | .ok id => (.ok id, ⟨(modelName, id) :: st.cache, st.lookups + 1⟩)
    | _ =>
      match fallbackVersion modelName with
      | some v => (.ok v, ⟨st.cache, st.lookups + 1⟩)
      | none =>
        (.error ("Could not determine version for model " ++ modelName),
          ⟨st.cache, st.lookups + 1⟩)

end SoundServer

/-! ### Claim C9 -/

/-- Counterexample to claim C9 as stated: the claim says the version is
looked up dynamically at most once and that every later call returns the
first call's value.  In the sound server, a failed lookup returns the
hardcoded fallback without caching it: starting from the empty cache,
with the first lookup failing and the second succeeding with a different
id, the first call on `sepal/audiogen` returns the fallback hash, the
second call performs a second dynamic lookup and returns a different
value. -/
theorem c9_counterexample_sound_fallback_not_cached :
    (SoundServer.getModelVersion
        (oracleCons (.failed "net") (fun _ => .ok "NEWVERSION"))
        "sepal/audiogen" ⟨[], 0⟩).1 =
      .ok "154b3e5141493cb1b8cec976d9aa90f2b691137e39ad906d2421b74c2a8c52b8" ∧
    (SoundServer.getModelVersion
        (oracleCons (.failed "net") (fun _ => .ok "NEWVERSION"))
        "sepal/audiogen"
        (SoundServer.getModelVersion
          (oracleCons (.failed "net") (fun _ => .ok "NEWVERSION"))
          "sepal/audiogen" ⟨[], 0⟩).2).1 = .ok "NEWVERSION" ∧
    ("154b3e5141493cb1b8cec976d9aa90f2b691137e39ad906d2421b74c2a8c52b8" : String) ≠
      "NEWVERSION" ∧
    (SoundServer.getModelVersion
        (oracleCons (.failed "net") (fun _ => .ok "NEWVERSION"))
        "sepal/audiogen"
        (SoundServer.getModelVersion
          (oracleCons (.failed "net") (fun _ => .ok "NEWVERSION"))
          "sepal/audiogen" ⟨[], 0⟩).2).2.lookups = 2 :=
  ⟨rfl, rfl, by decide, rfl⟩

/-- Claim C9, amended: the mesh server's `getModelVersion` behaves as
the claim states — every first call performs exactly one dynamic lookup,
caches its result (the looked-up id, or the hardcoded fallback when the
lookup fails), and every later call returns the cached first value with
no further lookups.  The sound server's `getModelVersion` caches only a
successful dynamic lookup: after a successful first call later calls
return the same id without further lookups, but a failed lookup returns
the model's hardcoded fallback without caching it, so the dynamic lookup
may be repeated. -/
theorem c9_amended_version_caching (oracle rest : Nat → LookupResult)
    (id msg : String) (hid : id ≠ "") :
    ((MeshServer.getModelVersion oracle ⟨none, 0⟩).2.lookups = 1 ∧
      MeshServer.getModelVersion oracle
          (MeshServer.getModelVersion oracle ⟨none, 0⟩).2 =
        ((MeshServer.getModelVersion oracle ⟨none, 0⟩).1,
          (MeshServer.getModelVersion oracle ⟨none, 0⟩).2)) ∧
    (MeshServer.getModelVersion (oracleCons (.failed msg) rest) ⟨none, 0⟩).1 =
      MeshServer.fallbackVersion ∧
    (SoundServer.getModelVersion (oracleCons (.ok id) rest) "sepal/audiogen"
        (SoundServer.getModelVersion (oracleCons (.ok id) rest)
          "sepal/audiogen" ⟨[], 0⟩).2 =
      (.ok id,
        (SoundServer.getModelVersion (oracleCons (.ok id) rest)
          "sepal/audiogen" ⟨[], 0⟩).2)) ∧
    (SoundServer.getModelVersion (oracleCons (.failed msg) rest)
        "sepal/audiogen" ⟨[], 0⟩).1 =
      .ok "154b3e5141493cb1b8cec976d9aa90f2b691137e39ad906d2421b74c2a8c52b8" ∧
    (SoundServer.getModelVersion (oracleCons (.failed msg) rest)
        "sepal/audiogen" ⟨[], 0⟩).2.cache = [] := by
  refine ⟨?_, ?_, ?_, ?_, ?_⟩
  · rcases h0 : oracle 0 with id0 | _ | m
    · by_cases hne : id0 ≠ ""
      · simp [MeshServer.getModelVersion, h0, hne]
      · simp [MeshServer.getModelVersion, h0, hne]
    · simp [MeshServer.getModelVersion, h0]
    · simp [MeshServer.getModelVersion, h0]
  · rfl
  · have h1 : (SoundServer.getModelVersion (oracleCons (.ok id) rest)
        "sepal/audiogen" ⟨[], 0⟩) =
        (.ok id, ⟨[("sepal/audiogen", id)], 1⟩) := rfl
    rw [h1]
    simp [SoundServer.getModelVersion, SoundServer.cachedVersion, hid]
  · rfl
  · rfl

/-- Witness for the amended C9 at a concrete oracle and model. -/
theorem c9_amended_witness :
    ((MeshServer.getModelVersion (fun _ => .missing) ⟨none, 0⟩).2.lookups = 1 ∧
      MeshServer.getModelVersion (fun _ => .missing)
          (MeshServer.getModelVersion (fun _ => .missing) ⟨none, 0⟩).2 =
        ((MeshServer.getModelVersion (fun _ => .missing) ⟨none, 0⟩).1,
          (MeshServer.getModelVersion (fun _ => .missing) ⟨none, 0⟩).2)) ∧
    (MeshServer.getModelVersion (oracleCons (.failed "boom") (fun _ => .missing))
        ⟨none, 0⟩).1 = MeshServer.fallbackVersion ∧
    (SoundServer.getModelVersion (oracleCons (.ok "V") (fun _ => .missing))
        "sepal/audiogen"
        (SoundServer.getModelVersion (oracleCons (.ok "V") (fun _ => .missing))
          "sepal/audiogen" ⟨[], 0⟩).2 =
      (.ok "V",
        (SoundServer.getModelVersion (oracleCons (.ok "V") (fun _ => .missing))
          "sepal/audiogen" ⟨[], 0⟩).2)) ∧
    (SoundServer.getModelVersion (oracleCons (.failed "boom") (fun _ => .missing))
        "sepal/audiogen" ⟨[], 0⟩).1 =
      .ok "154b3e5141493cb1b8cec976d9aa90f2b691137e39ad906d2421b74c2a8c52b8" ∧
    (SoundServer.getModelVersion (oracleCons (.failed "boom") (fun _ => .missing))
        "sepal/audiogen" ⟨[], 0⟩).2.cache = [] :=
  c9_amended_version_caching (fun _ => .missing) (fun _ => .missing)
    "V" "boom" (by decide)

end McpImageGen
